import Mathlib

/-!
Verification of the booking lifecycle and authorization model of the VSBS
vehicle-service booking application. The definitions below are a shallow
embedding of the Express route handlers in src/server/routes/bookings.js:
the document store becomes an explicit record of lists, each handler becomes
a pure function from the store and the authenticated caller to the updated
store and an HTTP-level outcome, and the three error classes of the design
(validation, not-found, authorization) become an inductive error type.

Modelling conventions:
- Object ids are natural numbers. The isMongoId format validator on the
  service field always passes in the model, because a request body carries
  an id by construction; a request with a malformed id string is rejected by
  the validator layer with a validation error and is outside the model.
- Dates are integers (milliseconds since the epoch, as in JavaScript).
  The isISO8601 validator always passes in the model for the same reason:
  appointmentDate is carried already parsed. The midnight-normalized value
  of the current day is passed to createBooking as the parameter today,
  mirroring new Date() followed by setHours(0,0,0,0).
- The trim-then-length checks of the validator chain are modelled by
  trimChars on the character list of the string.
- Mongoose document save and findByIdAndUpdate are modelled by replacing
  the booking with the matching id in the stored list.
-/

/-- Roles of the identity store: user, mechanic, admin. -/
inductive Role where
  | user
  | mechanic
  | admin
  deriving DecidableEq

/-- An identity record, reduced to the fields the booking routes consult:
the object id and the role. -/
structure UserRec where
  id : Nat
  role : Role
  deriving DecidableEq

/-- A service catalog record, reduced to the fields the booking routes
consult: the object id and the price. -/
structure Service where
  id : Nat
  price : Nat
  deriving DecidableEq

/-- Vehicle details carried by a create-booking request body
(src/server/routes/bookings.js lines 42 to 46). -/
structure VehicleDetails where
  type : String
  make : String
  model : String
  year : Int
  licensePlate : String
  deriving DecidableEq

/-- A booking record of the ledger. The createdAt field is the creation
timestamp used by the newest-first sort of the list route. -/
structure Booking where
  id : Nat
  user : Nat
  service : Nat
  mechanic : Option Nat
  vehicleDetails : VehicleDetails
  appointmentDate : Int
  appointmentTime : String
  notes : Option String
  totalAmount : Nat
  status : String
  createdAt : Int
  deriving DecidableEq

/-- The document store: identity store, service catalog, booking ledger,
and the id the next inserted booking receives. -/
structure DB where
  users : List UserRec
  services : List Service
  bookings : List Booking
  nextBookingId : Nat
  deriving DecidableEq

/-- The error taxonomy of the design: validation failure (HTTP 400, with
per-field messages), referenced entity absent (HTTP 404), caller lacks the
capability (HTTP 403). -/
inductive ApiError where
  | validationError (msgs : List String)
  | notFoundError (msg : String)
  | authorizationError (msg : String)
  deriving DecidableEq

/-- The body of a create-booking request (src/server/routes/bookings.js
line 56), with service and appointmentDate already parsed per the
modelling conventions above. -/
structure CreateBody where
  service : Nat
  vehicleDetails : VehicleDetails
  appointmentDate : Int
  appointmentTime : String
  notes : Option String
  deriving DecidableEq

/-- Characters left after removing leading and trailing whitespace; model
of the trim() step of the validator chain. -/
def trimChars (cs : List Char) : List Char :=
  ((cs.dropWhile Char.isWhitespace).reverse.dropWhile Char.isWhitespace).reverse

/-- Length of a string after trimming, the quantity tested by
trim().isLength(\x7b min: 1 \x7d). -/
def trimmedLength (s : String) : Nat := (trimChars s.data).length

/-- Field validation of the create route (src/server/routes/bookings.js
lines 41 to 48): the messages of every violated validator, in declaration
order. The isMongoId and isISO8601 validators pass by construction, per
the modelling conventions. -/
def validateCreate (body : CreateBody) : List String :=
  (if body.vehicleDetails.type = "car" ∨ body.vehicleDetails.type = "bike" then []
   else ["Vehicle type must be car or bike"]) ++
  (if 1 ≤ trimmedLength body.vehicleDetails.make then [] else ["Vehicle make is required"]) ++
  (if 1 ≤ trimmedLength body.vehicleDetails.model then [] else ["Vehicle model is required"]) ++
  (if (1900 : Int) ≤ body.vehicleDetails.year then [] else ["Valid year is required"]) ++
  (if 1 ≤ trimmedLength body.vehicleDetails.licensePlate then [] else ["License plate is required"]) ++
  (if 1 ≤ body.appointmentTime.length then [] else ["Appointment time is required"])

/-- Modelled from the spec: the Booking model (src/server/models/Booking.js,
not present under src/) gives a newly created booking the default status
pending. -/
def defaultBookingStatus : String := "pending"

/-- Modelled from the spec: the authorizeRoles middleware
(src/server/middleware/auth.js, not present under src/) admits a caller to
the assign-mechanic route exactly when the role is admin; any other caller
is rejected with an authorization failure before the handler runs. -/
def authorizeRolesAdmin (caller : UserRec) : Bool := caller.role == Role.admin

/-- Statuses accepted by the status-update route
(src/server/routes/bookings.js line 108). -/
def validStatuses : List String :=
  ["pending", "approved", "rejected", "in-progress", "completed", "cancelled"]

/-- Model of a mongoose document save: the booking with the same id is
replaced in the ledger; nothing else changes. -/
def saveBooking (db : DB) (b : Booking) : DB :=
  { db with bookings := db.bookings.map (fun x => if x.id = b.id then b else x) }

/-- Status part of the list filter (src/server/routes/bookings.js line 16):
applied only when the query parameter is present and truthy (non-empty). -/
def statusQueryMatches (qstatus : Option String) (b : Booking) : Bool :=
  match qstatus with
  | some s => if s ≠ "" then b.status == s else true
  | none => true

/-- Role part of the list filter (src/server/routes/bookings.js lines 19
to 24): user sees own bookings, mechanic sees assigned bookings, admin has
no role condition. -/
def roleScopeMatches (caller : UserRec) (b : Booking) : Bool :=
  match caller.role with
  | Role.user => b.user == caller.id
  | Role.mechanic => b.mechanic == some caller.id
  | Role.admin => true

/-- The complete find filter of the list route. -/
def matchesFilter (caller : UserRec) (qstatus : Option String) (b : Booking) : Bool :=
  statusQueryMatches qstatus b && roleScopeMatches caller b

/-- List route GET / (src/server/routes/bookings.js lines 11 to 37):
bookings matching the role scope and the optional status filter, newest
created first. -/
def getBookings (db : DB) (caller : UserRec) (qstatus : Option String) : List Booking :=
  (db.bookings.filter (matchesFilter caller qstatus)).insertionSort
    (fun a b => b.createdAt ≤ a.createdAt)

/-- The booking object literal of the create handler
(src/server/routes/bookings.js lines 74 to 82): owned by the caller, no
mechanic yet, total amount copied from the resolved service's price at
this instant, default status from the model, created now. -/
def newBookingFor (db : DB) (caller : UserRec) (now : Int) (body : CreateBody)
    (service : Service) : Booking :=
  { id := db.nextBookingId
    user := caller.id
    service := body.service
    mechanic := none
    vehicleDetails := body.vehicleDetails
    appointmentDate := body.appointmentDate
    appointmentTime := body.appointmentTime
    notes := body.notes
    totalAmount := service.price
    status := defaultBookingStatus
    createdAt := now }

/-- Create route POST / (src/server/routes/bookings.js lines 40 to 100):
field validation, service lookup, past-date check, then insertion of the
new booking owned by the caller with the price snapshot and the default
status. The parameter now is the clock reading at the request and today
its midnight normalization. -/
def createBooking (db : DB) (caller : UserRec) (now today : Int) (body : CreateBody) :
    DB × Except ApiError Booking :=
  let errs := validateCreate body
  if errs ≠ [] then
    (db, Except.error (ApiError.validationError errs))
  else
    match db.services.find? (fun s => s.id == body.service) with
    | none => (db, Except.error (ApiError.notFoundError "Service not found"))
    | some service =>
      if body.appointmentDate < today then
        (db, Except.error (ApiError.validationError ["Appointment date must be in the future"]))
      else
        let booking := newBookingFor db caller now body service
        ({ db with
            bookings := db.bookings ++ [booking]
            nextBookingId := db.nextBookingId + 1 },
         Except.ok booking)

/-- Status-update route PATCH /:id/status (src/server/routes/bookings.js
lines 103 to 144): enum check, booking lookup, ownership check for
user-role callers, cancel-only check for user-role callers, then the
status write. -/
def updateBookingStatus (db : DB) (caller : UserRec) (bookingId : Nat) (status : String) :
    DB × Except ApiError Booking :=
  if ¬ validStatuses.contains status then
    (db, Except.error (ApiError.validationError ["Invalid status"]))
  else
    match db.bookings.find? (fun b => b.id == bookingId) with
    | none => (db, Except.error (ApiError.notFoundError "Booking not found"))
    | some booking =>
      if caller.role = Role.user ∧ booking.user ≠ caller.id then
        (db, Except.error (ApiError.authorizationError "Access denied"))
      else if caller.role = Role.user ∧ status ≠ "cancelled" then
        (db, Except.error (ApiError.authorizationError "Users can only cancel bookings"))
      else
        let updated := { booking with status := status }
        (saveBooking db updated, Except.ok updated)

/-- Assign-mechanic route PATCH /:id/assign-mechanic
(src/server/routes/bookings.js lines 147 to 180): admin gate (middleware),
mechanic identity lookup, then findByIdAndUpdate of the mechanic field. -/
def assignMechanic (db : DB) (caller : UserRec) (bookingId : Nat) (mechanicId : Nat) :
    DB × Except ApiError Booking :=
  if ¬ authorizeRolesAdmin caller then
    (db, Except.error (ApiError.authorizationError "Access denied"))
  else
    match db.users.find? (fun u => u.id == mechanicId && u.role == Role.mechanic) with
    | none => (db, Except.error (ApiError.notFoundError "Mechanic not found"))
    | some _ =>
      match db.bookings.find? (fun b => b.id == bookingId) with
      | none => (db, Except.error (ApiError.notFoundError "Booking not found"))
      | some booking =>
        let updated := { booking with mechanic := some mechanicId }
        (saveBooking db updated, Except.ok updated)

/-- Get-one route GET /:id (src/server/routes/bookings.js lines 183 to
208): booking lookup first, then the visibility check (admin, owner, or
assigned mechanic). Reads do not change the store. -/
def getBooking (db : DB) (caller : UserRec) (bookingId : Nat) : Except ApiError Booking :=
  match db.bookings.find? (fun b => b.id == bookingId) with
  | none => Except.error (ApiError.notFoundError "Booking not found")
  | some booking =>
    if caller.role = Role.admin ∨ booking.user = caller.id ∨ booking.mechanic = some caller.id then
      Except.ok booking
    else
      Except.error (ApiError.authorizationError "Access denied")

/-- Boolean classifier for authorization failures, used by claims that fix
the error class but not the message text. -/
def isAuthorizationError : Except ApiError Booking → Bool
  | Except.error (ApiError.authorizationError _) => true
  | _ => false

/-- Boolean classifier for validation failures. -/
def isValidationError : Except ApiError Booking → Bool
  | Except.error (ApiError.validationError _) => true
  | _ => false

/-- Concrete fixture: a catalog service priced 50. -/
def svc50 : Service := { id := 1, price := 50 }

/-- Concrete fixture: an admin caller. -/
def adminCaller : UserRec := { id := 10, role := Role.admin }

/-- Concrete fixture: a mechanic caller. -/
def mechCaller : UserRec := { id := 20, role := Role.mechanic }

/-- Concrete fixture: a user-role caller. -/
def userCaller : UserRec := { id := 30, role := Role.user }

/-- Concrete fixture: valid vehicle details. -/
def vdCar : VehicleDetails :=
  { type := "car", make := "Toyota", model := "Corolla", year := 2020, licensePlate := "ABC123" }

/-- Concrete fixture: a fully valid create-booking body referencing the
catalog service, appointment at time 100. -/
def okBody : CreateBody :=
  { service := 1, vehicleDetails := vdCar, appointmentDate := 100,
    appointmentTime := "10:00", notes := none }

/-- Concrete fixture: a create-booking body whose appointment date 10 lies
before today and whose service reference 99 is absent from the catalog. -/
def pastBody : CreateBody :=
  { service := 99, vehicleDetails := vdCar, appointmentDate := 10,
    appointmentTime := "10:00", notes := none }

/-- Concrete fixture: a pending booking owned by the user-role caller,
no mechanic assigned. -/
def bk7 : Booking :=
  { id := 7, user := 30, service := 1, mechanic := none, vehicleDetails := vdCar,
    appointmentDate := 100, appointmentTime := "10:00", notes := none,
    totalAmount := 50, status := "pending", createdAt := 5 }

/-- Concrete fixture: an approved booking owned by another user, assigned
to the mechanic caller. -/
def bk8 : Booking :=
  { id := 8, user := 31, service := 1, mechanic := some 20, vehicleDetails := vdCar,
    appointmentDate := 200, appointmentTime := "11:00", notes := none,
    totalAmount := 50, status := "approved", createdAt := 9 }

/-- Concrete fixture: a store with the three callers, one service and no
bookings. -/
def db0 : DB :=
  { users := [adminCaller, mechCaller, userCaller], services := [svc50],
    bookings := [], nextBookingId := 0 }

/-- Concrete fixture: a store holding the two bookings. -/
def db1 : DB :=
  { users := [adminCaller, mechCaller, userCaller], services := [svc50],
    bookings := [bk7, bk8], nextBookingId := 9 }

/-- Claim C1 counterexample: the create route carries no role restriction
(src/server/routes/bookings.js line 40 mounts only the authentication
middleware), so a create attempt by the admin-role caller with a valid
body succeeds and persists a booking, refuting the claim that such an
attempt fails with an authorization error and persists no booking. The
same computation with mechCaller succeeds likewise. -/
theorem create_by_admin_succeeds_cex :
    adminCaller.role = Role.admin ∧
    createBooking db0 adminCaller 100 50 okBody =
      ({ db0 with
          bookings := [newBookingFor db0 adminCaller 100 okBody svc50]
          nextBookingId := 1 },
       Except.ok (newBookingFor db0 adminCaller 100 okBody svc50)) :=
  ⟨rfl, rfl⟩

/-- Claim C1 (amended): create booking is permitted for every authenticated
caller regardless of role. The handler reads only the caller's id, so the
outcome is identical for any role, and no create attempt ever fails with
an authorization error. -/
theorem create_role_blind (db : DB) (i : Nat) (r : Role) (now today : Int) (body : CreateBody) :
    createBooking db ⟨i, r⟩ now today body = createBooking db ⟨i, Role.user⟩ now today body ∧
    ∀ m, (createBooking db ⟨i, r⟩ now today body).2 ≠
      Except.error (ApiError.authorizationError m) := by
  constructor
  · rfl
  · intro m
    by_cases hv : validateCreate body = []
    · cases hfind : List.find? (fun s => s.id == body.service) db.services with
      | none => simp [createBooking, hv, hfind]
      | some s =>
        by_cases hd : body.appointmentDate < today <;>
          simp [createBooking, hv, hfind, hd]
    · simp [createBooking, hv]

/-- Claim C7: a status-update attempt whose target is outside the
enumerated status set fails with a validation error and leaves the store
untouched, for every caller role and every booking identifier, existing or
not: the enum check precedes the booking lookup. -/
theorem invalid_status_validation (db : DB) (caller : UserRec) (bid : Nat) (target : String)
    (h : validStatuses.contains target = false) :
    updateBookingStatus db caller bid target =
      (db, Except.error (ApiError.validationError ["Invalid status"])) := by
  unfold updateBookingStatus
  rw [h]
  simp

/-- Witness for claim C7 at a concrete input: target paid is outside the
set and the booking id 999 does not exist in the store, yet the outcome is
the validation error. -/
theorem invalid_status_validation_witness :
    updateBookingStatus db1 adminCaller 999 "paid" =
      (db1, Except.error (ApiError.validationError ["Invalid status"])) :=
  invalid_status_validation db1 adminCaller 999 "paid" (by decide)

/-- Claim C8: an assign-mechanic attempt whose identity reference does not
resolve to a user with role mechanic fails with the not-found error for
the mechanic and leaves the store (hence every booking's mechanic
reference) unchanged, for every booking identifier, existing or not: the
identity check precedes the booking lookup. -/
theorem assign_unknown_mechanic_not_found (db : DB) (caller : UserRec) (bid mid : Nat)
    (hrole : caller.role = Role.admin)
    (hmech : db.users.find? (fun u => u.id == mid && u.role == Role.mechanic) = none) :
    assignMechanic db caller bid mid =
      (db, Except.error (ApiError.notFoundError "Mechanic not found")) := by
  unfold assignMechanic authorizeRolesAdmin
  rw [hrole, hmech]
  simp

/-- Witness for claim C8 at a concrete input: id 30 names a user-role
identity, not a mechanic, and booking id 999 does not exist, yet the
outcome is the mechanic not-found error with the store unchanged. -/
theorem assign_unknown_mechanic_not_found_witness :
    assignMechanic db1 adminCaller 999 30 =
      (db1, Except.error (ApiError.notFoundError "Mechanic not found")) :=
  assign_unknown_mechanic_not_found db1 adminCaller 999 30 rfl (by decide)

/-- Claim C2: a create request that passes field validation, whose service
reference resolves, and whose appointment date is not before
midnight-normalized today succeeds, and the persisted booking is owned by
the authenticated caller, carries the default status pending, and carries
a total amount equal to the resolved service's price at that instant. The
price is copied by value into the record (snapshot semantics), so later
catalog changes cannot alter it. -/
theorem create_success_shape (db : DB) (caller : UserRec) (now today : Int)
    (body : CreateBody) (s : Service)
    (hval : validateCreate body = [])
    (hsvc : db.services.find? (fun x => x.id == body.service) = some s)
    (hdate : ¬ body.appointmentDate < today) :
    createBooking db caller now today body =
      ({ db with
          bookings := db.bookings ++ [newBookingFor db caller now body s]
          nextBookingId := db.nextBookingId + 1 },
       Except.ok (newBookingFor db caller now body s)) ∧
    (newBookingFor db caller now body s).user = caller.id ∧
    (newBookingFor db caller now body s).status = "pending" ∧
    (newBookingFor db caller now body s).totalAmount = s.price ∧
    newBookingFor db caller now body s ∈ (createBooking db caller now today body).1.bookings := by
  refine ⟨?_, rfl, rfl, rfl, ?_⟩
  · simp [createBooking, hval, hsvc, hdate]
  · simp [createBooking, hval, hsvc, hdate]

/-- Witness for claim C2 at a concrete input: the valid body against the
store db0 on day 50 at instant 100. -/
theorem create_success_shape_witness :
    createBooking db0 userCaller 100 50 okBody =
      ({ db0 with
          bookings := db0.bookings ++ [newBookingFor db0 userCaller 100 okBody svc50]
          nextBookingId := db0.nextBookingId + 1 },
       Except.ok (newBookingFor db0 userCaller 100 okBody svc50)) ∧
    (newBookingFor db0 userCaller 100 okBody svc50).user = userCaller.id ∧
    (newBookingFor db0 userCaller 100 okBody svc50).status = "pending" ∧
    (newBookingFor db0 userCaller 100 okBody svc50).totalAmount = svc50.price ∧
    newBookingFor db0 userCaller 100 okBody svc50 ∈
      (createBooking db0 userCaller 100 50 okBody).1.bookings :=
  create_success_shape db0 userCaller 100 50 okBody svc50 (by decide) (by decide) (by decide)

/-- Claim C6 counterexample: the service lookup precedes the past-date
check, so a create attempt whose appointment date 10 lies strictly before
today 50 but whose service reference 99 does not resolve fails with the
not-found error, not with a validation error, refuting the claim as
universally stated. Nothing is persisted either way. -/
theorem create_past_date_not_found_cex :
    pastBody.appointmentDate < 50 ∧
    createBooking db1 userCaller 60 50 pastBody =
      (db1, Except.error (ApiError.notFoundError "Service not found")) :=
  ⟨by decide, rfl⟩

/-- Claim C6 (amended): a create attempt whose service reference resolves
and whose appointment date lies strictly before midnight-normalized today
fails with a validation error and persists no booking record. -/
theorem create_past_date_rejected (db : DB) (caller : UserRec) (now today : Int)
    (body : CreateBody) (s : Service)
    (hsvc : db.services.find? (fun x => x.id == body.service) = some s)
    (hdate : body.appointmentDate < today) :
    (createBooking db caller now today body).1 = db ∧
    isValidationError (createBooking db caller now today body).2 = true := by
  by_cases hv : validateCreate body = []
  · simp [createBooking, hv, hsvc, hdate, isValidationError]
  · simp [createBooking, hv, isValidationError]

/-- Witness for the amended claim C6 at a concrete input: a valid body for
the resolvable service 1 with appointment date 10, requested on day 50. -/
theorem create_past_date_rejected_witness :
    (createBooking db1 userCaller 60 50
        { service := 1, vehicleDetails := vdCar, appointmentDate := 10,
          appointmentTime := "10:00", notes := none }).1 = db1 ∧
    isValidationError (createBooking db1 userCaller 60 50
        { service := 1, vehicleDetails := vdCar, appointmentDate := 10,
          appointmentTime := "10:00", notes := none }).2 = true :=
  create_past_date_rejected db1 userCaller 60 50
    { service := 1, vehicleDetails := vdCar, appointmentDate := 10,
      appointmentTime := "10:00", notes := none } svc50 (by decide) (by decide)

/-- Claim C3: a status update by a user-role caller targeting an
enumerated status other than cancelled fails with an authorization error,
raised by the ownership check or the cancel-only check before any write,
so the store and in particular the stored status of the booking are
unchanged. -/
theorem user_update_noncancel_denied (db : DB) (caller : UserRec) (bid : Nat)
    (target : String) (bk : Booking)
    (hrole : caller.role = Role.user)
    (henum : validStatuses.contains target = true)
    (hnc : target ≠ "cancelled")
    (hfind : db.bookings.find? (fun b => b.id == bid) = some bk) :
    (updateBookingStatus db caller bid target).1 = db ∧
    isAuthorizationError (updateBookingStatus db caller bid target).2 = true := by
  have hmem : target ∈ validStatuses := by simpa using henum
  by_cases h : bk.user = caller.id <;>
    simp [updateBookingStatus, hmem, hfind, hrole, h, hnc, isAuthorizationError]

/-- Witness for claim C3 at a concrete input: the user-role caller targets
status approved on their own booking 7 and is denied without a write. -/
theorem user_update_noncancel_denied_witness :
    (updateBookingStatus db1 userCaller 7 "approved").1 = db1 ∧
    isAuthorizationError (updateBookingStatus db1 userCaller 7 "approved").2 = true :=
  user_update_noncancel_denied db1 userCaller 7 "approved" bk7
    rfl (by decide) (by decide) (by decide)

/-- Claim C5: the get-one route checks existence before authorization. An
unresolved booking identifier yields the not-found error for every caller;
a resolved booking is returned exactly when the caller is admin, the
booking's owning user, or the assigned mechanic, and otherwise the
authorization error is returned. -/
theorem get_booking_visibility (db : DB) (caller : UserRec) (bid : Nat) (bk : Booking) :
    (db.bookings.find? (fun b => b.id == bid) = none →
      getBooking db caller bid = Except.error (ApiError.notFoundError "Booking not found")) ∧
    (db.bookings.find? (fun b => b.id == bid) = some bk →
      ((getBooking db caller bid = Except.ok bk ↔
         (caller.role = Role.admin ∨ bk.user = caller.id ∨ bk.mechanic = some caller.id)) ∧
       (¬ (caller.role = Role.admin ∨ bk.user = caller.id ∨ bk.mechanic = some caller.id) →
         getBooking db caller bid = Except.error (ApiError.authorizationError "Access denied")))) := by
  constructor
  · intro h
    simp [getBooking, h]
  · intro h
    by_cases hacc : caller.role = Role.admin ∨ bk.user = caller.id ∨ bk.mechanic = some caller.id
    · simp [getBooking, h, hacc]
    · simp [getBooking, h, hacc]

/-- Witness for claim C5 at concrete inputs: the unresolved id 99 yields
the not-found error even for the user-role caller who owns nothing
there. -/
theorem get_booking_visibility_witness :
    getBooking db1 userCaller 99 =
      Except.error (ApiError.notFoundError "Booking not found") :=
  (get_booking_visibility db1 userCaller 99 bk7).1 (by decide)

/-- Membership in the list route's result coincides with membership in the
ledger combined with the find filter, because the newest-first sort only
permutes the filtered list. -/
theorem mem_getBookings_iff (db : DB) (caller : UserRec) (q : Option String) (b : Booking) :
    b ∈ getBookings db caller q ↔ b ∈ db.bookings ∧ matchesFilter caller q b = true := by
  unfold getBookings
  rw [List.Perm.mem_iff (List.perm_insertionSort _ _)]
  exact List.mem_filter

/-- Claim C4: the list route scopes its result by the caller's role. Every
booking returned to a user-role caller is owned by that caller; every
booking returned to a mechanic-role caller has that caller as its assigned
mechanic; for an admin-role caller membership in the result is governed by
the optional status filter alone. -/
theorem list_role_scoping (db : DB) (caller : UserRec) (q : Option String) (b : Booking) :
    (caller.role = Role.user → b ∈ getBookings db caller q → b.user = caller.id) ∧
    (caller.role = Role.mechanic → b ∈ getBookings db caller q → b.mechanic = some caller.id) ∧
    (caller.role = Role.admin →
      (b ∈ getBookings db caller q ↔ b ∈ db.bookings ∧ statusQueryMatches q b = true)) := by
  refine ⟨?_, ?_, ?_⟩
  · intro hr hmem
    have h2 := ((mem_getBookings_iff db caller q b).1 hmem).2
    simp [matchesFilter, roleScopeMatches, hr] at h2
    exact h2.2
  · intro hr hmem
    have h2 := ((mem_getBookings_iff db caller q b).1 hmem).2
    simp [matchesFilter, roleScopeMatches, hr] at h2
    exact h2.2
  · intro hr
    rw [mem_getBookings_iff]
    simp [matchesFilter, roleScopeMatches, hr]

/-- Witness for claim C4 at concrete inputs: booking 7 listed to its
user-role owner is indeed owned by the caller, and for the admin-role
caller membership of booking 8 reduces to the status filter alone. -/
theorem list_role_scoping_witness :
    bk7.user = userCaller.id ∧
    (bk8 ∈ getBookings db1 adminCaller none ↔
      bk8 ∈ db1.bookings ∧ statusQueryMatches none bk8 = true) :=
  ⟨(list_role_scoping db1 userCaller none bk7).1 rfl (by decide),
   (list_role_scoping db1 adminCaller none bk8).2.2 rfl⟩

/-- Claim C10: for an existing booking and an enumerated target status,
the status update fails with an authorization error exactly when the
caller's role is user and either the caller is not the booking's owner or
the target status is not cancelled. Consequently a mechanic-role caller
may set any enumerated status on any existing booking, including bookings
not assigned to them, which they cannot even read through the get-one
route. -/
theorem status_update_auth_iff (db : DB) (caller : UserRec) (bid : Nat) (target : String)
    (bk : Booking)
    (hfind : db.bookings.find? (fun b => b.id == bid) = some bk)
    (henum : validStatuses.contains target = true) :
    (isAuthorizationError (updateBookingStatus db caller bid target).2 = true ↔
      (caller.role = Role.user ∧ (bk.user ≠ caller.id ∨ target ≠ "cancelled"))) ∧
    (caller.role = Role.mechanic →
      updateBookingStatus db caller bid target =
        (saveBooking db { bk with status := target },
         Except.ok { bk with status := target })) ∧
    (caller.role = Role.mechanic → bk.user ≠ caller.id → bk.mechanic ≠ some caller.id →
      getBooking db caller bid = Except.error (ApiError.authorizationError "Access denied")) := by
  have hmem : target ∈ validStatuses := by simpa using henum
  refine ⟨?_, ?_, ?_⟩
  · by_cases hr : caller.role = Role.user
    · by_cases h : bk.user = caller.id
      · by_cases hc : target = "cancelled"
        · subst hc
          simp [updateBookingStatus, hmem, hfind, hr, h, isAuthorizationError]
        · simp [updateBookingStatus, hmem, hfind, hr, h, hc, isAuthorizationError]
      · simp [updateBookingStatus, hmem, hfind, hr, h, isAuthorizationError]
    · simp [updateBookingStatus, hmem, hfind, hr, isAuthorizationError]
  · intro hm
    have hr : caller.role ≠ Role.user := by simp [hm]
    simp [updateBookingStatus, hmem, hfind, hr]
  · intro hm ho hmech
    have hr : caller.role ≠ Role.admin := by simp [hm]
    simp [getBooking, hfind, hr, ho, hmech]

/-- Witness for claim C10 at concrete inputs: the mechanic-role caller is
neither the owner nor the assigned mechanic of booking 7, cannot read it
through the get-one route, and still sets its status to completed. -/
theorem status_update_auth_iff_witness :
    updateBookingStatus db1 mechCaller 7 "completed" =
      (saveBooking db1 { bk7 with status := "completed" },
       Except.ok { bk7 with status := "completed" }) ∧
    getBooking db1 mechCaller 7 =
      Except.error (ApiError.authorizationError "Access denied") :=
  ⟨(status_update_auth_iff db1 mechCaller 7 "completed" bk7 (by decide) (by decide)).2.1 rfl,
   (status_update_auth_iff db1 mechCaller 7 "completed" bk7 (by decide) (by decide)).2.2
     rfl (by decide) (by decide)⟩

/-- Saving a field update of the booking found by id rewrites the ledger
pointwise, provided the stored ids are distinct and the update preserves
the id. -/
theorem saveBooking_map_unique (db : DB) (booking : Booking) (bid : Nat) (f : Booking → Booking)
    (hnodup : (db.bookings.map (fun b => b.id)).Nodup)
    (hmemb : booking ∈ db.bookings) (hbid : booking.id = bid)
    (hid : (f booking).id = booking.id) :
    (saveBooking db (f booking)).bookings =
      db.bookings.map (fun b => if b.id = bid then f b else b) := by
  simp only [saveBooking]
  refine List.map_congr_left ?_
  intro x hx
  by_cases hxb : x.id = bid
  · have hxB : x = booking :=
      List.inj_on_of_nodup_map hnodup hx hmemb (show x.id = booking.id by rw [hxb, hbid])
    subst hxB
    simp [hid, hbid, hxb]
  · simp [hid, hbid, hxb]

/-- Claim C9: writes touch a single field. When the ledger's booking ids
are distinct (as object ids are in the store), a successful status update
rewrites the ledger so that exactly the target booking's status field
changes, and a successful mechanic assignment rewrites it so that exactly
the target booking's mechanic field changes; every other field of every
stored booking, in particular the owning user reference, the total amount,
the vehicle details and the scheduling fields, is unchanged. -/
theorem updates_touch_single_field (db : DB) (caller : UserRec) (bid mid : Nat)
    (target : String) (dbS dbM : DB) (bS bM : Booking)
    (hnodup : (db.bookings.map (fun b => b.id)).Nodup) :
    (updateBookingStatus db caller bid target = (dbS, Except.ok bS) →
      dbS.bookings =
        db.bookings.map (fun b => if b.id = bid then { b with status := target } else b)) ∧
    (assignMechanic db caller bid mid = (dbM, Except.ok bM) →
      dbM.bookings =
        db.bookings.map (fun b => if b.id = bid then { b with mechanic := some mid } else b)) := by
  constructor
  · intro h
    by_cases hen : validStatuses.contains target = true
    · have hmem : target ∈ validStatuses := by simpa using hen
      cases hfind : db.bookings.find? (fun b => b.id == bid) with
      | none => simp [updateBookingStatus, hmem, hfind] at h
      | some booking =>
        have hmemb : booking ∈ db.bookings := List.mem_of_find?_eq_some hfind
        have hbid : booking.id = bid := by simpa using List.find?_some hfind
        by_cases hc1 : caller.role = Role.user ∧ booking.user ≠ caller.id
        · simp [updateBookingStatus, hmem, hfind, hc1] at h
        · by_cases hc2 : caller.role = Role.user ∧ target ≠ "cancelled"
          · have ho : booking.user = caller.id := by
              by_contra hn
              exact hc1 ⟨hc2.1, hn⟩
            simp [updateBookingStatus, hmem, hfind, hc1, hc2, ho] at h
          · have hres : dbS = saveBooking db { booking with status := target } := by
              simp [updateBookingStatus, hmem, hfind, hc1, hc2] at h
              exact h.1.symm
            rw [hres]
            exact saveBooking_map_unique db booking bid
              (fun b => { b with status := target }) hnodup hmemb hbid rfl
    · have hmem : ¬ target ∈ validStatuses := by simpa using hen
      simp [updateBookingStatus, hmem] at h
  · intro h
    by_cases hadm : authorizeRolesAdmin caller = true
    · cases hfm : db.users.find? (fun u => u.id == mid && u.role == Role.mechanic) with
      | none => simp [assignMechanic, hadm, hfm] at h
      | some mrec =>
        cases hfind : db.bookings.find? (fun b => b.id == bid) with
        | none => simp [assignMechanic, hadm, hfm, hfind] at h
        | some booking =>
          have hmemb : booking ∈ db.bookings := List.mem_of_find?_eq_some hfind
          have hbid : booking.id = bid := by simpa using List.find?_some hfind
          have hres : dbM = saveBooking db { booking with mechanic := some mid } := by
            simp [assignMechanic, hadm, hfm, hfind] at h
            exact h.1.symm
          subst hres
          simp only [saveBooking]
          refine List.map_congr_left ?_
          intro x hx
          by_cases hxb : x.id = bid
          · have hxB : x = booking :=
              List.inj_on_of_nodup_map hnodup hx hmemb
                (show x.id = booking.id by rw [hxb, hbid])
            subst hxB
            simp [hxb]
          · simp [hbid, hxb]
    · simp [assignMechanic, hadm] at h

/-- Witness for claim C9 at concrete inputs: the owner cancels booking 7
and the admin assigns mechanic 20 to booking 7; in each resulting ledger
exactly the one field of the one booking differs. -/
theorem updates_touch_single_field_witness :
    ({ db1 with bookings := [{ bk7 with status := "cancelled" }, bk8] } : DB).bookings =
      db1.bookings.map (fun b => if b.id = 7 then { b with status := "cancelled" } else b) ∧
    ({ db1 with bookings := [{ bk7 with mechanic := some 20 }, bk8] } : DB).bookings =
      db1.bookings.map (fun b => if b.id = 7 then { b with mechanic := some 20 } else b) :=
  ⟨(updates_touch_single_field db1 userCaller 7 20 "cancelled"
      { db1 with bookings := [{ bk7 with status := "cancelled" }, bk8] }
      { db1 with bookings := [{ bk7 with mechanic := some 20 }, bk8] }
      { bk7 with status := "cancelled" } { bk7 with mechanic := some 20 }
      (by decide)).1 rfl,
   (updates_touch_single_field db1 adminCaller 7 20 "cancelled"
      { db1 with bookings := [{ bk7 with status := "cancelled" }, bk8] }
      { db1 with bookings := [{ bk7 with mechanic := some 20 }, bk8] }
      { bk7 with status := "cancelled" } { bk7 with mechanic := some 20 }
      (by decide)).2 rfl⟩

/-- Witness for the amended claim C1 at a concrete input: the admin-role
caller's create attempt has the same outcome as that of a user-role caller
with the same id, and that outcome is not an authorization error. -/
theorem create_role_blind_witness :
    createBooking db0 ⟨10, Role.admin⟩ 100 50 okBody =
      createBooking db0 ⟨10, Role.user⟩ 100 50 okBody ∧
    (createBooking db0 ⟨10, Role.admin⟩ 100 50 okBody).2 ≠
      Except.error (ApiError.authorizationError "Access denied") :=
  ⟨(create_role_blind db0 10 Role.admin 100 50 okBody).1,
   (create_role_blind db0 10 Role.admin 100 50 okBody).2 "Access denied"⟩
